/-
Verification development for the daily-transit rule engine of the
swiss-ephemeris-api repository (`app/astro_core/daily_transits.py` and
`app/astro_core/math_utils.py`).

The Python code is shallowly embedded: floats become rationals (`ℚ`),
Python's `%` on floats becomes `pymod` (remainder with the divisor's sign),
`int(...)` truncation of nonnegative values becomes `Int.floor` followed by
`Int.toNat`, dictionaries become association lists in insertion order, and
Python's stable `sorted` with a tuple key becomes `List.mergeSort` with the
lexicographic key order.  A function that can raise is embedded into
`Except String`.
-/
import Mathlib

set_option maxHeartbeats 1000000

/-- The zodiac sign names, in order (`SIGNS` in the source). -/
def SIGNS : List String :=
  ["Aries", "Taurus", "Gemini", "Cancer", "Leo", "Virgo",
   "Libra", "Scorpio", "Sagittarius", "Capricorn", "Aquarius", "Pisces"]

/-- Python's `x % m` on floats: the remainder carrying the divisor's sign.
For `m > 0` the result is in `[0, m)`. -/
def pymod (x m : ℚ) : ℚ := x - m * ⌊x / m⌋

/-- `norm360` from `daily_transits.py`: `x % 360.0`, then add `360` if the
result is negative (the second step never fires, since Python's `%` with a
positive modulus is already nonnegative). -/
def norm360 (x : ℚ) : ℚ :=
  let y := pymod x 360.0
  if y < 0 then y + 360.0 else y

/-- `angular_distance` from `daily_transits.py`: shortest-arc separation. -/
def angular_distance (a b : ℚ) : ℚ :=
  let d := pymod |norm360 a - norm360 b| 360.0
  if d ≤ 180.0 then d else 360.0 - d

/-- `aspect_error` from `daily_transits.py`: separation minus the ideal
aspect angle. -/
def aspect_error (transit_lon natal_lon aspect_deg : ℚ) : ℚ :=
  angular_distance transit_lon natal_lon - aspect_deg

/-- `is_minute_exact` from `daily_transits.py`. -/
def is_minute_exact (error_deg minute_tolerance_arcmin : ℚ) : Bool :=
  decide (|error_deg| ≤ minute_tolerance_arcmin / 60.0)

/-- Empty string used as the (never taken) out-of-range default for sign
lookups, where Python would raise an IndexError. -/
def noSign : String := ""

/-- Two-digit zero-padded rendering of a natural number, Python's `{:02d}`. -/
def pad2 (n : ℕ) : String :=
  if n < 10 then "0" ++ toString n else toString n

/-- Sign index `int(deg // 30)` computed by `format_sign_degree`. -/
def sign_index_of (deg : ℚ) : ℕ := (⌊norm360 deg / 30⌋).toNat

/-- Degrees within the sign, `deg - sign_index * 30`, from `format_sign_degree`. -/
def deg_in_sign_of (deg : ℚ) : ℚ := norm360 deg - (sign_index_of deg : ℚ) * 30

/-- Whole degrees `int(math.floor(deg_in_sign))` from `format_sign_degree`. -/
def whole_deg_of (deg : ℚ) : ℕ := (⌊deg_in_sign_of deg⌋).toNat

/-- Arcminutes `int((deg_in_sign - whole_deg) * 60.0)` from
`format_sign_degree`; truncation, not rounding. -/
def minutes_of (deg : ℚ) : ℕ :=
  (⌊(deg_in_sign_of deg - (whole_deg_of deg : ℚ)) * 60.0⌋).toNat

/-- `format_sign_degree` from `daily_transits.py`. -/
def format_sign_degree (deg : ℚ) : String :=
  SIGNS.getD (sign_index_of deg) noSign ++ " " ++ toString (whole_deg_of deg)
    ++ "°" ++ pad2 (minutes_of deg) ++ "′"

/-- Whole degrees `int(math.floor(abs(error_deg)))` from `_format_error_minutes`. -/
def err_whole_of (error_deg : ℚ) : ℕ := (⌊|error_deg|⌋).toNat

/-- Arcminutes `int((d_abs - whole) * 60.0)` from `_format_error_minutes`;
truncation, not rounding. -/
def err_minutes_of (error_deg : ℚ) : ℕ :=
  (⌊(|error_deg| - (err_whole_of error_deg : ℚ)) * 60.0⌋).toNat

/-- `_format_error_minutes` from `daily_transits.py`. -/
def format_error_minutes (error_deg : ℚ) : String :=
  (if error_deg ≥ 0 then "+" else "-") ++ toString (err_whole_of error_deg)
    ++ "°" ++ pad2 (err_minutes_of error_deg) ++ "′"

/-
The rule table (`class RULES` in `daily_transits.py`).  Python sets and
dicts are embedded as lists in source order; membership is by `contains`
(string equality), dict lookup by `List.lookup`.
-/

namespace RULES

/-- `RULES.TRANSIT_INCLUDED`. -/
def TRANSIT_INCLUDED : List String :=
  ["Sun", "Mercury", "Venus", "Mars", "Jupiter",
   "Saturn", "Uranus", "Neptune", "Pluto",
   "Chiron", "North Node"]

/-- `RULES.TRANSIT_EXCLUDED`. -/
def TRANSIT_EXCLUDED : List String := ["Moon", "South Node"]

/-- `RULES.NATAL_ELIGIBLE`. -/
def NATAL_ELIGIBLE : List String :=
  ["Sun", "Moon", "Mercury", "Venus", "Mars", "Jupiter",
   "Saturn", "Uranus", "Neptune", "Pluto",
   "Chiron", "North Node",
   "Ascendant", "Midheaven", "Part of Fortune"]

/-- `RULES.ASPECTS_DEG` (insertion order of the Python dict). -/
def ASPECTS_DEG : List (String × ℚ) :=
  [("conjunction", 0.0), ("sextile", 60.0), ("square", 90.0),
   ("trine", 120.0), ("opposition", 180.0), ("quincunx", 150.0)]

/-- `RULES.ORB_RULES`: transiting body → (applying orb, separating orb). -/
def ORB_RULES : List (String × (ℚ × ℚ)) :=
  [("Sun", (2.0, 1.0)), ("Venus", (2.0, 1.0)), ("Mars", (2.0, 1.0)),
   ("Jupiter", (2.0, 1.0)), ("Mercury", (2.5, 1.0))]

/-- `RULES.MINUTE_EXACT_TRANSITS`. -/
def MINUTE_EXACT_TRANSITS : List String :=
  ["Saturn", "Uranus", "Neptune", "Pluto", "Chiron", "North Node"]

/-- `RULES.MINUTE_TOL_ARCMIN`. -/
def MINUTE_TOL_ARCMIN : ℚ := 1.59

/-- `RULES.OUTER_NATAL`. -/
def OUTER_NATAL : List String := ["Saturn", "Uranus", "Neptune", "Pluto"]

/-- `RULES.OUTER_NATAL_ALLOWED_TRANSITS`. -/
def OUTER_NATAL_ALLOWED_TRANSITS : List String :=
  ["Sun", "Mercury", "Venus", "Mars", "Jupiter"]

/-- `RULES.MARS_DOMINANCE_DIURNAL_ONLY`. -/
def MARS_DOMINANCE_DIURNAL_ONLY : Bool := true

end RULES

/-- `BodyPosition` dataclass: a longitude with an optional speed (deg/day). -/
structure BodyPosition where
  longitude : ℚ
  speed : Option ℚ := none
deriving DecidableEq

/-- `TransitAspectHit` dataclass, fields in source order. -/
structure TransitAspectHit where
  transit_body : String
  natal_point : String
  aspect_name : String
  aspect_angle : ℚ
  error_deg : ℚ
  applying : Option Bool := none
  orb_used : Option ℚ := none
  minute_exact_required : Bool := false
  minute_exact_passed : Bool := true
  notes : String := ""
  qualifies : Bool := true
  within_orb : Option Bool := none
deriving DecidableEq

/-- `DailyTransitRuleEngine`'s state: the (already validated, lowercased)
sect and the minute tolerance in arcminutes. -/
structure DailyTransitRuleEngine where
  sect : String
  minute_tol : ℚ
deriving DecidableEq

/-- `DailyTransitRuleEngine._eligible_transit_body`. -/
def eligible_transit_body (body : String) : Bool :=
  if RULES.TRANSIT_EXCLUDED.contains body then false
  else RULES.TRANSIT_INCLUDED.contains body

/-- `DailyTransitRuleEngine._eligible_natal_point`. -/
def eligible_natal_point (point : String) : Bool :=
  RULES.NATAL_ELIGIBLE.contains point

/-- `DailyTransitRuleEngine._outer_natal_receiving_allowed`. -/
def outer_natal_receiving_allowed (transit_body natal_point : String) : Bool :=
  if RULES.OUTER_NATAL.contains natal_point then
    RULES.OUTER_NATAL_ALLOWED_TRANSITS.contains transit_body
  else true

/-- `DailyTransitRuleEngine._minute_exact_required`. -/
def minute_exact_required (transit_body : String) : Bool :=
  RULES.MINUTE_EXACT_TRANSITS.contains transit_body

/-- `DailyTransitRuleEngine._applying_or_separating`: tri-state
applying/separating from a forward projection of 0.1 day; `none` when the
speed is absent. -/
def applying_or_separating (transit_lon : ℚ) (transit_speed : Option ℚ)
    (natal_lon aspect_angle : ℚ) : Option Bool :=
  match transit_speed with
  | none => none
  | some speed =>
    let err_now := |aspect_error transit_lon natal_lon aspect_angle|
    let step : ℚ := 0.1
    let future_lon := norm360 (transit_lon + speed * step)
    let err_future := |aspect_error future_lon natal_lon aspect_angle|
    if err_future < err_now then some true
    else if err_future > err_now then some false
    else some true

/-- `DailyTransitRuleEngine._orb_for_non_exact`: orb selection for the
orb regime; the tighter orb when applying is unknown. -/
def orb_for_non_exact (transit_body : String) (applying : Option Bool) :
    Option ℚ :=
  match List.lookup transit_body RULES.ORB_RULES with
  | none => none
  | some (app_orb, sep_orb) =>
    match applying with
    | none => some (min app_orb sep_orb)
    | some true => some app_orb
    | some false => some sep_orb

/-- The body of the innermost loop of `DailyTransitRuleEngine.find_aspects`:
the hits (zero or one) contributed by one (transit, natal, aspect) triple. -/
def aspect_hits (e : DailyTransitRuleEngine) (qualify : Bool)
    (t n : String × BodyPosition) (asp : String × ℚ) :
    List TransitAspectHit :=
  let err := aspect_error t.2.longitude n.2.longitude asp.2
  let abs_err := |err|
  if minute_exact_required t.1 then
    let passed := is_minute_exact abs_err e.minute_tol
    if qualify && !passed then []
    else
      [{ transit_body := t.1, natal_point := n.1, aspect_name := asp.1,
         aspect_angle := asp.2, error_deg := err, applying := none,
         orb_used := none, minute_exact_required := true,
         minute_exact_passed := passed, qualifies := passed,
         within_orb := none,
         notes := if passed then "minute-exact transit"
                  else "minute-exact required (did not pass)" }]
  else
    let applying :=
      applying_or_separating t.2.longitude t.2.speed n.2.longitude asp.2
    match orb_for_non_exact t.1 applying with
    | none => []
    | some orb =>
      let within_orb := decide (abs_err ≤ orb)
      if qualify && !within_orb then []
      else
        [{ transit_body := t.1, natal_point := n.1, aspect_name := asp.1,
           aspect_angle := asp.2, error_deg := err, applying := applying,
           orb_used := some orb, minute_exact_required := false,
           minute_exact_passed := true, qualifies := within_orb,
           within_orb := some within_orb,
           notes := if within_orb then "within orb" else "outside orb" }]

/-- `DailyTransitRuleEngine.find_aspects`: the triple-nested enumeration
over eligible transits, eligible natal points, and the aspect table. -/
def find_aspects (e : DailyTransitRuleEngine)
    (transits natal : List (String × BodyPosition)) (qualify : Bool) :
    List TransitAspectHit :=
  let transit_items := transits.filter (fun b => eligible_transit_body b.1)
  let natal_items := natal.filter (fun n => eligible_natal_point n.1)
  transit_items.flatMap (fun t =>
    natal_items.flatMap (fun n =>
      if outer_natal_receiving_allowed t.1 n.1 then
        RULES.ASPECTS_DEG.flatMap (aspect_hits e qualify t n)
      else []))

/-- `DailyTransitRuleEngine.apply_mars_dominance`: in diurnal charts,
suppress non-Mars hits to natal points that Mars also hits. -/
def apply_mars_dominance (e : DailyTransitRuleEngine)
    (hits : List TransitAspectHit) : List TransitAspectHit :=
  if !RULES.MARS_DOMINANCE_DIURNAL_ONLY || e.sect != "diurnal" then hits
  else
    let dominated_points :=
      (hits.filter (fun h => h.transit_body == "Mars")).map
        (fun h => h.natal_point)
    if dominated_points.isEmpty then hits
    else
      hits.filter (fun h =>
        h.transit_body == "Mars" || !(dominated_points.contains h.natal_point))

/-- The composite sort key of `DailyTransitRuleEngine.rank_hits`:
(bucket, applying rank, |error|, transiting body, natal point, angle). -/
def rank_key (h : TransitAspectHit) : ℕ × ℕ × ℚ × String × String × ℚ :=
  if h.minute_exact_required then
    (3, 0, |h.error_deg|, h.transit_body, h.natal_point, h.aspect_angle)
  else
    (0,
     match h.applying with
     | some true => 0
     | none => 1
     | some false => 2,
     |h.error_deg|, h.transit_body, h.natal_point, h.aspect_angle)

/-- One step of the lexicographic tuple comparison Python's `sorted`
performs on the key. -/
def lexStep {α : Type} [LinearOrder α] (x y : α) (rest : Bool) : Bool :=
  if x < y then true else if y < x then false else rest

/-- Lexicographic `≤` on the composite sort key (Python tuple order). -/
def key_le (k k' : ℕ × ℕ × ℚ × String × String × ℚ) : Bool :=
  lexStep k.1 k'.1 (lexStep k.2.1 k'.2.1 (lexStep k.2.2.1 k'.2.2.1
    (lexStep k.2.2.2.1 k'.2.2.2.1 (lexStep k.2.2.2.2.1 k'.2.2.2.2.1
      (decide (k.2.2.2.2.2 ≤ k'.2.2.2.2.2))))))

/-- The hit-level comparison used by `rank_hits`. -/
def hit_le (a b : TransitAspectHit) : Bool := key_le (rank_key a) (rank_key b)

/-- `DailyTransitRuleEngine.rank_hits`: Python's stable `sorted` by the
composite key, embedded as a stable merge sort under `hit_le`. -/
def rank_hits (hits : List TransitAspectHit) : List TransitAspectHit :=
  hits.mergeSort hit_le

/-- `DailyTransitRuleEngine.run_qualifying`: qualify, dominance-filter, rank. -/
def run_qualifying (e : DailyTransitRuleEngine)
    (transits natal : List (String × BodyPosition)) : List TransitAspectHit :=
  rank_hits (apply_mars_dominance e (find_aspects e transits natal true))

/-- `DailyTransitRuleEngine.run_all`: keep every computed hit, never apply
the dominance filter, rank. -/
def run_all (e : DailyTransitRuleEngine)
    (transits natal : List (String × BodyPosition)) : List TransitAspectHit :=
  rank_hits (find_aspects e transits natal false)

/-
Embedding of `app/astro_core/math_utils.py` (the claim-relevant parts:
`norm360`, `sign_index`, and the broken `format_lon_ddmmss_sign`).
-/

namespace MathUtils

/-- `norm360` from `math_utils.py`: plain `x % 360.0` (already in `[0,360)`
under Python float semantics). -/
def norm360 (x : ℚ) : ℚ := pymod x 360.0

/-- `sign_index` from `math_utils.py`. -/
def sign_index (lon : ℚ) : ℕ := (⌊norm360 lon / 30⌋).toNat

/-- Reading a Python local variable: `none` models a variable that was never
assigned on any path, so reading it raises `UnboundLocalError`. -/
def readLocal (v : Option ℤ) : Except String ℤ :=
  match v with
  | some x => Except.ok x
  | none =>
    Except.error "UnboundLocalError: local variable referenced before assignment"

/-- `format_lon_ddmmss_sign` from `math_utils.py`.  The function assigns a
local `minutes` but then reads a local `minute` (in the `sec == 60` rollover
`minute += 1` and in the unconditional `minute == 60` check), which is never
assigned: `minuteVar` stays `none` and every read of it is an
`UnboundLocalError`.  The trailing success path embeds the source's
formatting for completeness; it is unreachable. -/
def format_lon_ddmmss_sign (lon : ℚ) : Except String String :=
  let lon := norm360 lon
  let sidx := sign_index lon
  let sign := SIGNS.getD sidx noSign
  let within := lon - (sidx : ℚ) * 30.0
  let deg : ℤ := ⌊within⌋
  let minutes_full := (within - (deg : ℚ)) * 60.0
  let minutes : ℤ := ⌊minutes_full⌋
  let seconds_full := (minutes_full - (minutes : ℚ)) * 60.0
  let sec : ℤ := ⌊seconds_full + 0.5⌋
  let minuteVar : Option ℤ := none
  let rollover : Except String (ℤ × Option ℤ) :=
    if sec == 60 then
      match readLocal minuteVar with
      | Except.error e => Except.error e
      | Except.ok m => Except.ok ((0 : ℤ), some (m + 1))
    else Except.ok (sec, minuteVar)
  match rollover with
  | Except.error e => Except.error e
  | Except.ok (sec2, mv) =>
    match readLocal mv with
    | Except.error e => Except.error e
    | Except.ok m =>
      let md : ℤ × ℤ := if m == 60 then (0, deg + 1) else (m, deg)
      let ds : ℤ × String :=
        if md.2 == 30 then ((0 : ℤ), SIGNS.getD ((sidx + 1) % 12) noSign)
        else (md.2, sign)
      Except.ok (toString ds.1 ++ "°" ++ pad2 md.1.toNat ++ "′"
        ++ pad2 sec2.toNat ++ "″ " ++ ds.2)

end MathUtils

/-- The orb-regime hit of the ranking example in the spec: applying, with
the larger absolute error. -/
def exampleApplyingHit : TransitAspectHit :=
  { transit_body := "Venus", natal_point := "Sun",
    aspect_name := "conjunction", aspect_angle := 0.0, error_deg := 0.3,
    applying := some true, orb_used := some 2.0,
    minute_exact_required := false, minute_exact_passed := true,
    notes := "within orb", qualifies := true, within_orb := some true }

/-- The orb-regime hit of the ranking example in the spec: separating, with
the smaller absolute error. -/
def exampleSeparatingHit : TransitAspectHit :=
  { transit_body := "Venus", natal_point := "Sun",
    aspect_name := "conjunction", aspect_angle := 0.0, error_deg := 0.1,
    applying := some false, orb_used := some 1.0,
    minute_exact_required := false, minute_exact_passed := true,
    notes := "within orb", qualifies := true, within_orb := some true }

/-
Basic facts about the geometry helpers.
-/

theorem pymod_eq_mul_fract (x : ℚ) {m : ℚ} (hm : m ≠ 0) :
    pymod x m = m * Int.fract (x / m) := by
  unfold pymod Int.fract
  field_simp

theorem pymod_nonneg (x : ℚ) {m : ℚ} (hm : 0 < m) : 0 ≤ pymod x m := by
  rw [pymod_eq_mul_fract x hm.ne']
  exact mul_nonneg hm.le (Int.fract_nonneg _)

theorem pymod_lt (x : ℚ) {m : ℚ} (hm : 0 < m) : pymod x m < m := by
  rw [pymod_eq_mul_fract x hm.ne']
  calc m * Int.fract (x / m) < m * 1 :=
        (mul_lt_mul_left hm).mpr (Int.fract_lt_one _)
    _ = m := mul_one m

theorem pymod_eq_self {x m : ℚ} (hx : 0 ≤ x) (hxm : x < m) : pymod x m = x := by
  have hm : 0 < m := lt_of_le_of_lt hx hxm
  have h0 : ⌊x / m⌋ = 0 := by
    rw [Int.floor_eq_zero_iff]
    constructor
    · exact div_nonneg hx hm.le
    · rw [div_lt_one hm]; exact hxm
  unfold pymod
  rw [h0]
  push_cast
  ring

theorem norm360_eq_pymod (x : ℚ) : norm360 x = pymod x 360.0 := by
  unfold norm360
  rw [if_neg]
  simp only [not_lt]
  exact pymod_nonneg x (by norm_num)

theorem norm360_nonneg (x : ℚ) : 0 ≤ norm360 x := by
  rw [norm360_eq_pymod]; exact pymod_nonneg x (by norm_num)

theorem norm360_lt (x : ℚ) : norm360 x < 360 := by
  rw [norm360_eq_pymod]
  have := pymod_lt x (m := 360.0) (by norm_num)
  norm_num at this ⊢
  exact this

theorem angular_distance_nonneg (a b : ℚ) : 0 ≤ angular_distance a b := by
  unfold angular_distance
  dsimp only
  have hd : 0 ≤ pymod |norm360 a - norm360 b| 360.0 :=
    pymod_nonneg _ (by norm_num)
  have hd' : pymod |norm360 a - norm360 b| 360.0 < 360.0 :=
    pymod_lt _ (by norm_num)
  split_ifs
  · exact hd
  · norm_num at hd' ⊢; linarith

theorem angular_distance_le_180 (a b : ℚ) : angular_distance a b ≤ 180 := by
  unfold angular_distance
  dsimp only
  have hd : 0 ≤ pymod |norm360 a - norm360 b| 360.0 :=
    pymod_nonneg _ (by norm_num)
  split_ifs with h
  · norm_num at h ⊢; exact h
  · norm_num at h ⊢; linarith

theorem aspect_error_bounds (t n a : ℚ) (h0 : 0 ≤ a) (h180 : a ≤ 180) :
    -180 ≤ aspect_error t n a ∧ aspect_error t n a ≤ 180 := by
  unfold aspect_error
  have h1 := angular_distance_nonneg t n
  have h2 := angular_distance_le_180 t n
  constructor <;> linarith

/-
Membership facts about the classifier.
-/

theorem list_contains_iff {l : List String} {a : String} :
    l.contains a = true ↔ a ∈ l := by
  simp [List.contains, List.elem_iff]

/-- Everything `aspect_hits` can put into the hit list, by case analysis on
the two regimes. -/
theorem aspect_hits_spec {e : DailyTransitRuleEngine} {q : Bool}
    {t n : String × BodyPosition} {asp : String × ℚ} {h : TransitAspectHit}
    (hh : h ∈ aspect_hits e q t n asp) :
    h.transit_body = t.1 ∧ h.natal_point = n.1 ∧ h.aspect_name = asp.1 ∧
    h.aspect_angle = asp.2 ∧
    h.error_deg = aspect_error t.2.longitude n.2.longitude asp.2 ∧
    h.minute_exact_required = minute_exact_required t.1 ∧
    (minute_exact_required t.1 = true →
      h.applying = none ∧ h.orb_used = none ∧
      h.qualifies = is_minute_exact |h.error_deg| e.minute_tol) ∧
    (minute_exact_required t.1 = false →
      h.applying =
        applying_or_separating t.2.longitude t.2.speed n.2.longitude asp.2 ∧
      ∃ orb, orb_for_non_exact t.1 h.applying = some orb ∧
        h.orb_used = some orb ∧ h.qualifies = decide (|h.error_deg| ≤ orb) ∧
        h.within_orb = some (decide (|h.error_deg| ≤ orb))) := by
  unfold aspect_hits at hh
  dsimp only at hh
  split at hh
  case isTrue hreq =>
    split at hh
    case isTrue => exact absurd hh (List.not_mem_nil h)
    case isFalse =>
      rw [List.mem_singleton] at hh
      subst hh
      refine ⟨rfl, rfl, rfl, rfl, rfl, by simp [hreq], fun _ => ⟨rfl, rfl, rfl⟩,
        fun hc => ?_⟩
      rw [hreq] at hc
      exact absurd hc (by simp)
  case isFalse hreq =>
    have hreq' : minute_exact_required t.1 = false := by
      simpa using hreq
    split at hh
    case h_1 => exact absurd hh (List.not_mem_nil h)
    case h_2 orb horb =>
      split at hh
      case isTrue => exact absurd hh (List.not_mem_nil h)
      case isFalse =>
        rw [List.mem_singleton] at hh
        subst hh
        exact ⟨rfl, rfl, rfl, rfl, rfl, by simp [hreq'],
          fun hc => absurd hc (by simp [hreq']),
          fun _ => ⟨rfl, orb, horb, rfl, rfl, rfl⟩⟩

/-- Every hit of `find_aspects` comes from an eligible transit entry, an
eligible natal entry, and an aspect-table row that passed the outer-natal
gate. -/
theorem mem_find_aspects {e : DailyTransitRuleEngine}
    {tr na : List (String × BodyPosition)} {q : Bool} {h : TransitAspectHit}
    (hh : h ∈ find_aspects e tr na q) :
    ∃ t, t ∈ tr ∧ ∃ n, n ∈ na ∧ ∃ asp, asp ∈ RULES.ASPECTS_DEG ∧
      eligible_transit_body t.1 = true ∧ eligible_natal_point n.1 = true ∧
      outer_natal_receiving_allowed t.1 n.1 = true ∧
      h ∈ aspect_hits e q t n asp := by
  unfold find_aspects at hh
  simp only [List.mem_flatMap, List.mem_filter] at hh
  obtain ⟨t, ⟨ht, het⟩, n, ⟨hn, hen⟩, hh⟩ := hh
  split at hh
  case isTrue ho =>
    simp only [List.mem_flatMap] at hh
    obtain ⟨asp, hasp, hh⟩ := hh
    exact ⟨t, ht, n, hn, asp, hasp, het, hen, ho, hh⟩
  case isFalse => exact absurd hh (List.not_mem_nil h)

theorem mem_rank_hits {h : TransitAspectHit} {l : List TransitAspectHit} :
    h ∈ rank_hits l ↔ h ∈ l :=
  (List.mergeSort_perm l hit_le).mem_iff

theorem mem_of_apply_mars_dominance {e : DailyTransitRuleEngine}
    {l : List TransitAspectHit} {h : TransitAspectHit}
    (hh : h ∈ apply_mars_dominance e l) : h ∈ l := by
  unfold apply_mars_dominance at hh
  split at hh
  · exact hh
  · dsimp only at hh
    split at hh
    · exact hh
    · exact List.mem_of_mem_filter hh

theorem mem_run_qualifying {e : DailyTransitRuleEngine}
    {tr na : List (String × BodyPosition)} {h : TransitAspectHit}
    (hh : h ∈ run_qualifying e tr na) : h ∈ find_aspects e tr na true :=
  mem_of_apply_mars_dominance (mem_rank_hits.mp hh)

theorem mem_run_all {e : DailyTransitRuleEngine}
    {tr na : List (String × BodyPosition)} {h : TransitAspectHit}
    (hh : h ∈ run_all e tr na) : h ∈ find_aspects e tr na false :=
  mem_rank_hits.mp hh

/-- An orb is only ever selected for bodies present in the orb table. -/
theorem orb_for_non_exact_some {b : String} {app : Option Bool} {orb : ℚ}
    (h : orb_for_non_exact b app = some orb) :
    ∃ p, List.lookup b RULES.ORB_RULES = some p := by
  unfold orb_for_non_exact at h
  split at h
  · exact absurd h (by simp)
  · next a s heq => exact ⟨(a, s), heq⟩

/-
The lexicographic key order used by the ranker is a total preorder.
-/

theorem lexStep_eq_true_iff {α : Type} [LinearOrder α] (x y : α) (r : Bool) :
    lexStep x y r = true ↔ x < y ∨ (x = y ∧ r = true) := by
  unfold lexStep
  split_ifs with h1 h2
  · simp [h1]
  · constructor
    · intro hF; exact absurd hF (by simp)
    · rintro (hlt | ⟨rfl, hr⟩)
      · exact absurd hlt h1
      · exact absurd h2 (lt_irrefl _)
  · have heq : x = y := le_antisymm (not_lt.mp h2) (not_lt.mp h1)
    simp [heq, lt_irrefl]

theorem lexStep_trans {α : Type} [LinearOrder α] {x y z : α} {r s t : Bool}
    (hrst : r = true → s = true → t = true) :
    lexStep x y r = true → lexStep y z s = true → lexStep x z t = true := by
  simp only [lexStep_eq_true_iff]
  rintro (h1 | ⟨rfl, h1⟩) (h2 | ⟨rfl, h2⟩)
  · exact Or.inl (h1.trans h2)
  · exact Or.inl h1
  · exact Or.inl h2
  · exact Or.inr ⟨rfl, hrst h1 h2⟩

theorem lexStep_total {α : Type} [LinearOrder α] (x y : α) {r s : Bool}
    (hrs : r = true ∨ s = true) :
    lexStep x y r = true ∨ lexStep y x s = true := by
  rcases lt_trichotomy x y with h | h | h
  · exact Or.inl ((lexStep_eq_true_iff _ _ _).mpr (Or.inl h))
  · rcases hrs with hr | hs
    · exact Or.inl ((lexStep_eq_true_iff _ _ _).mpr (Or.inr ⟨h, hr⟩))
    · exact Or.inr ((lexStep_eq_true_iff _ _ _).mpr (Or.inr ⟨h.symm, hs⟩))
  · exact Or.inr ((lexStep_eq_true_iff _ _ _).mpr (Or.inl h))

theorem key_le_trans {a b c : ℕ × ℕ × ℚ × String × String × ℚ} :
    key_le a b = true → key_le b c = true → key_le a c = true := by
  unfold key_le
  exact lexStep_trans (lexStep_trans (lexStep_trans (lexStep_trans
    (lexStep_trans (fun h1 h2 => decide_eq_true
      (le_trans (of_decide_eq_true h1) (of_decide_eq_true h2)))))))

theorem key_le_total (a b : ℕ × ℕ × ℚ × String × String × ℚ) :
    key_le a b = true ∨ key_le b a = true := by
  unfold key_le
  exact lexStep_total _ _ (lexStep_total _ _ (lexStep_total _ _
    (lexStep_total _ _ (lexStep_total _ _
      ((le_total _ _).imp decide_eq_true decide_eq_true)))))

theorem hit_le_trans (a b c : TransitAspectHit) :
    hit_le a b = true → hit_le b c = true → hit_le a c = true :=
  key_le_trans

theorem hit_le_total (a b : TransitAspectHit) :
    (hit_le a b || hit_le b a) = true := by
  rcases key_le_total (rank_key a) (rank_key b) with h | h <;>
    simp [hit_le, h]

/-
Support lemmas for the display-formatting claims.
-/

theorem toNat_floor_le {x : ℚ} (hx : 0 ≤ x) : ((⌊x⌋.toNat : ℚ)) ≤ x := by
  have h0 : (0 : ℤ) ≤ ⌊x⌋ := Int.floor_nonneg.mpr hx
  have hcast : ((⌊x⌋.toNat : ℚ)) = ((⌊x⌋ : ℚ)) := by
    exact_mod_cast congrArg Int.cast (Int.toNat_of_nonneg h0)
  rw [hcast]
  exact Int.floor_le x

theorem lt_toNat_floor_add_one {x : ℚ} (hx : 0 ≤ x) :
    x < (⌊x⌋.toNat : ℚ) + 1 := by
  have h0 : (0 : ℤ) ≤ ⌊x⌋ := Int.floor_nonneg.mpr hx
  have hcast : ((⌊x⌋.toNat : ℚ)) = ((⌊x⌋ : ℚ)) := by
    exact_mod_cast congrArg Int.cast (Int.toNat_of_nonneg h0)
  rw [hcast]
  exact Int.lt_floor_add_one x

theorem deg_in_sign_of_nonneg (x : ℚ) : 0 ≤ deg_in_sign_of x := by
  unfold deg_in_sign_of sign_index_of
  have hn := norm360_nonneg x
  have h30 : ((⌊norm360 x / 30⌋.toNat : ℚ)) ≤ norm360 x / 30 :=
    toNat_floor_le (by positivity)
  have h2 : ((⌊norm360 x / 30⌋.toNat : ℚ)) * 30 ≤ (norm360 x / 30) * 30 :=
    mul_le_mul_of_nonneg_right h30 (by norm_num)
  rw [div_mul_cancel₀ _ (by norm_num : (30 : ℚ) ≠ 0)] at h2
  linarith

theorem frac_deg_bounds (x : ℚ) :
    0 ≤ deg_in_sign_of x - (whole_deg_of x : ℚ) ∧
    deg_in_sign_of x - (whole_deg_of x : ℚ) < 1 := by
  unfold whole_deg_of
  have h := deg_in_sign_of_nonneg x
  constructor
  · have := toNat_floor_le h; linarith
  · have := lt_toNat_floor_add_one h; linarith

theorem frac_err_bounds (e : ℚ) :
    0 ≤ |e| - (err_whole_of e : ℚ) ∧ |e| - (err_whole_of e : ℚ) < 1 := by
  unfold err_whole_of
  have h : (0 : ℚ) ≤ |e| := abs_nonneg e
  constructor
  · have := toNat_floor_le h; linarith
  · have := lt_toNat_floor_add_one h; linarith

/-
Claim theorems.
-/

/-- C9: the arcminute component of both display formatters is the
truncation (floor) of the fractional degree times 60, never a rounded
value: `minutes_of x` (used by `format_sign_degree`) and `err_minutes_of e`
(used by `format_error_minutes`) satisfy the floor characterization
`m ≤ frac*60 < m+1`, and a fractional part of `0.1333°` (`7.998′`)
displays as `07′`, not `08′`. -/
theorem C9_arcminutes_truncated :
    (∀ x : ℚ,
      (minutes_of x : ℚ) ≤ (deg_in_sign_of x - (whole_deg_of x : ℚ)) * 60 ∧
      (deg_in_sign_of x - (whole_deg_of x : ℚ)) * 60 < (minutes_of x : ℚ) + 1) ∧
    (∀ e : ℚ,
      (err_minutes_of e : ℚ) ≤ (|e| - (err_whole_of e : ℚ)) * 60 ∧
      (|e| - (err_whole_of e : ℚ)) * 60 < (err_minutes_of e : ℚ) + 1) ∧
    format_sign_degree 14.1333 = "Aries 14°07′" ∧
    format_error_minutes 0.1333 = "+0°07′" := by
  have h60 : (60.0 : ℚ) = 60 := by norm_num
  refine ⟨fun x => ?_, fun e => ?_, ?_, ?_⟩
  · unfold minutes_of
    rw [h60]
    have hf := (frac_deg_bounds x).1
    have hnn : 0 ≤ (deg_in_sign_of x - (whole_deg_of x : ℚ)) * 60 := by
      nlinarith
    exact ⟨toNat_floor_le hnn, lt_toNat_floor_add_one hnn⟩
  · unfold err_minutes_of
    rw [h60]
    have hf := (frac_err_bounds e).1
    have hnn : 0 ≤ (|e| - (err_whole_of e : ℚ)) * 60 := by nlinarith
    exact ⟨toNat_floor_le hnn, lt_toNat_floor_add_one hnn⟩
  · with_unfolding_all rfl
  · with_unfolding_all rfl

/-- C10: for every input longitude, `format_lon_ddmmss_sign` reads the
local variable `minute`, which is never assigned (the function assigns
`minutes`), so it always raises `UnboundLocalError` and never returns a
formatted string; its success branch is unreachable. -/
theorem C10_format_lon_ddmmss_sign_raises (lon : ℚ) :
    MathUtils.format_lon_ddmmss_sign lon =
      Except.error
        "UnboundLocalError: local variable referenced before assignment" := by
  unfold MathUtils.format_lon_ddmmss_sign
  dsimp only
  split_ifs <;> rfl

/-- C5: the applying/separating determination returns unknown (`none`)
when the transit speed is absent; otherwise it projects the longitude
forward by 0.1 day as `norm360 (lon + speed*0.1)` and returns `some true`
(applying) when the projected absolute aspect error is strictly smaller
than the current one, `some false` (separating) when strictly larger, and
`some true` on exact equality; for transit longitude 10.0 with speed 1.0
against natal 100.0 and the 90° square, the result is separating
(`some false`). -/
theorem C5_applying_or_separating :
    (∀ lon n a : ℚ, applying_or_separating lon none n a = none) ∧
    (∀ lon s n a : ℚ,
      (|aspect_error (norm360 (lon + s * 0.1)) n a| < |aspect_error lon n a| →
        applying_or_separating lon (some s) n a = some true) ∧
      (|aspect_error lon n a| < |aspect_error (norm360 (lon + s * 0.1)) n a| →
        applying_or_separating lon (some s) n a = some false) ∧
      (|aspect_error (norm360 (lon + s * 0.1)) n a| = |aspect_error lon n a| →
        applying_or_separating lon (some s) n a = some true)) ∧
    applying_or_separating 10.0 (some 1.0) 100.0 90.0 = some false := by
  refine ⟨fun lon n a => rfl, fun lon s n a => ⟨?_, ?_, ?_⟩, ?_⟩
  · intro hlt
    unfold applying_or_separating
    dsimp only
    rw [if_pos hlt]
  · intro hgt
    unfold applying_or_separating
    dsimp only
    rw [if_neg (by exact not_lt.mpr hgt.le), if_pos hgt]
  · intro heq
    unfold applying_or_separating
    dsimp only
    rw [if_neg (by rw [heq]; exact lt_irrefl _),
      if_neg (by rw [heq]; exact lt_irrefl _)]
  · with_unfolding_all rfl

/-- Witness for C5: both hypothesis-bearing cases instantiated — absent
speed yields unknown, and the spec's concrete example (transit 10.0°,
speed 1.0°/day, natal 100.0°, square) is separating. -/
theorem C5_applying_or_separating_witness :
    applying_or_separating 10.0 none 100.0 90.0 = none ∧
    applying_or_separating 10.0 (some 1.0) 100.0 90.0 = some false :=
  ⟨C5_applying_or_separating.1 10.0 100.0 90.0,
   (C5_applying_or_separating.2.1 10.0 1.0 100.0 90.0).2.1
     (by with_unfolding_all decide)⟩

/-- C6: for every orb-regime hit (transiting body not in the minute-exact
set), the orb used is the body's applying orb when applying, its separating
orb when separating, and the minimum of the two when applying is unknown;
the hit qualifies exactly when the absolute error is within that orb. -/
theorem C6_orb_selection :
    (∀ (b : String) (a s : ℚ),
      List.lookup b RULES.ORB_RULES = some (a, s) →
      orb_for_non_exact b (some true) = some a ∧
      orb_for_non_exact b (some false) = some s ∧
      orb_for_non_exact b none = some (min a s)) ∧
    (∀ b : String, List.lookup b RULES.ORB_RULES = none →
      ∀ app, orb_for_non_exact b app = none) ∧
    (∀ (e : DailyTransitRuleEngine) (tr na : List (String × BodyPosition))
        (q : Bool) (h : TransitAspectHit), h ∈ find_aspects e tr na q →
      h.transit_body ∉ RULES.MINUTE_EXACT_TRANSITS →
      ∃ orb, orb_for_non_exact h.transit_body h.applying = some orb ∧
        h.orb_used = some orb ∧ (h.qualifies = true ↔ |h.error_deg| ≤ orb)) := by
  refine ⟨fun b a s hl => ?_, fun b hl app => ?_, ?_⟩
  · unfold orb_for_non_exact
    rw [hl]
    exact ⟨rfl, rfl, rfl⟩
  · unfold orb_for_non_exact
    rw [hl]
  · intro e tr na q h hmem hnot
    obtain ⟨t, ht, n, hn, asp, hasp, het, hen, ho, hh⟩ := mem_find_aspects hmem
    obtain ⟨htb, hnp, han, hag, herr, hmreq, hA, hB⟩ := aspect_hits_spec hh
    have hreqf : minute_exact_required t.1 = false := by
      rw [htb] at hnot
      unfold minute_exact_required
      rw [Bool.eq_false_iff]
      intro hc
      exact hnot (list_contains_iff.mp hc)
    obtain ⟨happ, orb, horb, hused, hq, hw⟩ := hB hreqf
    refine ⟨orb, ?_, hused, ?_⟩
    · rw [htb]; exact horb
    · rw [hq]; exact decide_eq_true_iff

/-- Witness for C6: the orb table row for the Sun, and the unique
qualifying hit of a concrete Sun-conjunct-natal-Sun query, which uses the
tighter orb `min 2 1` because no speed was supplied. -/
theorem C6_orb_selection_witness :
    (orb_for_non_exact "Sun" (some true) = some 2.0 ∧
     orb_for_non_exact "Sun" (some false) = some 1.0 ∧
     orb_for_non_exact "Sun" none = some (min 2.0 1.0)) ∧
    (∃ orb,
      orb_for_non_exact
        (TransitAspectHit.transit_body
          { transit_body := "Sun", natal_point := "Sun",
            aspect_name := "conjunction", aspect_angle := 0.0,
            error_deg := 0.0, applying := none, orb_used := some 1.0,
            minute_exact_required := false, minute_exact_passed := true,
            notes := "within orb", qualifies := true,
            within_orb := some true })
        (TransitAspectHit.applying
          { transit_body := "Sun", natal_point := "Sun",
            aspect_name := "conjunction", aspect_angle := 0.0,
            error_deg := 0.0, applying := none, orb_used := some 1.0,
            minute_exact_required := false, minute_exact_passed := true,
            notes := "within orb", qualifies := true,
            within_orb := some true }) = some orb ∧
      TransitAspectHit.orb_used
          { transit_body := "Sun", natal_point := "Sun",
            aspect_name := "conjunction", aspect_angle := 0.0,
            error_deg := 0.0, applying := none, orb_used := some 1.0,
            minute_exact_required := false, minute_exact_passed := true,
            notes := "within orb", qualifies := true,
            within_orb := some true } = some orb ∧
      (TransitAspectHit.qualifies
          { transit_body := "Sun", natal_point := "Sun",
            aspect_name := "conjunction", aspect_angle := 0.0,
            error_deg := 0.0, applying := none, orb_used := some 1.0,
            minute_exact_required := false, minute_exact_passed := true,
            notes := "within orb", qualifies := true,
            within_orb := some true } = true ↔
        |TransitAspectHit.error_deg
          { transit_body := "Sun", natal_point := "Sun",
            aspect_name := "conjunction", aspect_angle := 0.0,
            error_deg := 0.0, applying := none, orb_used := some 1.0,
            minute_exact_required := false, minute_exact_passed := true,
            notes := "within orb", qualifies := true,
            within_orb := some true }| ≤ orb)) :=
  ⟨C6_orb_selection.1 "Sun" 2.0 1.0 (by with_unfolding_all rfl),
   C6_orb_selection.2.2 ⟨"diurnal", RULES.MINUTE_TOL_ARCMIN⟩
     [("Sun", ⟨0, none⟩)] [("Sun", ⟨0, none⟩)] true _
     (by with_unfolding_all decide) (by with_unfolding_all decide)⟩

/-- C4: every hit from a minute-exact transiting body (Saturn, Uranus,
Neptune, Pluto, Chiron, North Node) has `applying` and `orb_used` unset,
and qualifies exactly when the absolute error is within the tolerance
converted to degrees; with the default tolerance of 1.59 arcminutes an
absolute error of 0.0265° qualifies and 0.0266° does not. -/
theorem C4_minute_exact_hits :
    (∀ (e : DailyTransitRuleEngine) (tr na : List (String × BodyPosition))
        (q : Bool) (h : TransitAspectHit), h ∈ find_aspects e tr na q →
      h.transit_body ∈ RULES.MINUTE_EXACT_TRANSITS →
      h.applying = none ∧ h.orb_used = none ∧
      (h.qualifies = true ↔ |h.error_deg| ≤ e.minute_tol / 60)) ∧
    is_minute_exact 0.0265 RULES.MINUTE_TOL_ARCMIN = true ∧
    is_minute_exact 0.0266 RULES.MINUTE_TOL_ARCMIN = false := by
  refine ⟨?_, by with_unfolding_all rfl, by with_unfolding_all rfl⟩
  intro e tr na q h hmem hin
  obtain ⟨t, ht, n, hn, asp, hasp, het, hen, ho, hh⟩ := mem_find_aspects hmem
  obtain ⟨htb, hnp, han, hag, herr, hmreq, hA, hB⟩ := aspect_hits_spec hh
  have hreqt : minute_exact_required t.1 = true := by
    rw [htb] at hin
    exact list_contains_iff.mpr hin
  obtain ⟨happ, hused, hq⟩ := hA hreqt
  refine ⟨happ, hused, ?_⟩
  rw [hq]
  unfold is_minute_exact
  rw [abs_abs]
  rw [show (60.0 : ℚ) = 60 from by norm_num]
  exact decide_eq_true_iff

/-- Witness for C4: the unique qualifying hit of a concrete
Saturn-conjunct-natal-Sun query has unknown applying, no orb, and its
qualification is equivalent to the tolerance test. -/
theorem C4_minute_exact_hits_witness :
    TransitAspectHit.applying
        { transit_body := "Saturn", natal_point := "Sun",
          aspect_name := "conjunction", aspect_angle := 0.0,
          error_deg := 0.0, applying := none, orb_used := none,
          minute_exact_required := true, minute_exact_passed := true,
          notes := "minute-exact transit", qualifies := true,
          within_orb := none } = none ∧
    TransitAspectHit.orb_used
        { transit_body := "Saturn", natal_point := "Sun",
          aspect_name := "conjunction", aspect_angle := 0.0,
          error_deg := 0.0, applying := none, orb_used := none,
          minute_exact_required := true, minute_exact_passed := true,
          notes := "minute-exact transit", qualifies := true,
          within_orb := none } = none ∧
    (TransitAspectHit.qualifies
        { transit_body := "Saturn", natal_point := "Sun",
          aspect_name := "conjunction", aspect_angle := 0.0,
          error_deg := 0.0, applying := none, orb_used := none,
          minute_exact_required := true, minute_exact_passed := true,
          notes := "minute-exact transit", qualifies := true,
          within_orb := none } = true ↔
      |TransitAspectHit.error_deg
        { transit_body := "Saturn", natal_point := "Sun",
          aspect_name := "conjunction", aspect_angle := 0.0,
          error_deg := 0.0, applying := none, orb_used := none,
          minute_exact_required := true, minute_exact_passed := true,
          notes := "minute-exact transit", qualifies := true,
          within_orb := none }| ≤
        (DailyTransitRuleEngine.minute_tol
          ⟨"diurnal", RULES.MINUTE_TOL_ARCMIN⟩) / 60) :=
  C4_minute_exact_hits.1 ⟨"diurnal", RULES.MINUTE_TOL_ARCMIN⟩
    [("Saturn", ⟨0, none⟩)] [("Sun", ⟨0, none⟩)] true _
    (by with_unfolding_all decide) (by with_unfolding_all decide)

/-- C7: every produced hit has an eligible transiting body and natal point;
a transiting body absent from both the minute-exact set and the orb table
never appears in any hit (in either mode), and unrecognized position-set
keys are silently ignored — concretely, an unknown body or natal key
yields an empty hit list (the embedding is total, so no exception arises). -/
theorem C7_unknown_keys_silent :
    (∀ (e : DailyTransitRuleEngine) (tr na : List (String × BodyPosition))
        (q : Bool) (h : TransitAspectHit), h ∈ find_aspects e tr na q →
      eligible_transit_body h.transit_body = true ∧
      eligible_natal_point h.natal_point = true) ∧
    (∀ (e : DailyTransitRuleEngine) (tr na : List (String × BodyPosition))
        (q : Bool) (b : String),
      b ∉ RULES.MINUTE_EXACT_TRANSITS →
      List.lookup b RULES.ORB_RULES = none →
      ∀ h, h ∈ find_aspects e tr na q → h.transit_body ≠ b) ∧
    find_aspects ⟨"diurnal", RULES.MINUTE_TOL_ARCMIN⟩
      [("Vesta", ⟨0, none⟩)] [("Sun", ⟨0, none⟩)] false = [] ∧
    find_aspects ⟨"diurnal", RULES.MINUTE_TOL_ARCMIN⟩
      [("Sun", ⟨0, none⟩)] [("Vesta", ⟨0, none⟩)] false = [] := by
  refine ⟨?_, ?_, by with_unfolding_all rfl, by with_unfolding_all rfl⟩
  · intro e tr na q h hmem
    obtain ⟨t, ht, n, hn, asp, hasp, het, hen, ho, hh⟩ := mem_find_aspects hmem
    obtain ⟨htb, hnp, _⟩ := aspect_hits_spec hh
    rw [htb, hnp]
    exact ⟨het, hen⟩
  · intro e tr na q b hbm hbl h hmem heq
    obtain ⟨t, ht, n, hn, asp, hasp, het, hen, ho, hh⟩ := mem_find_aspects hmem
    obtain ⟨htb, hnp, han, hag, herr, hmreq, hA, hB⟩ := aspect_hits_spec hh
    rw [heq] at htb
    subst htb
    by_cases hreq : minute_exact_required t.1 = true
    · exact hbm (list_contains_iff.mp hreq)
    · obtain ⟨happ, orb, horb, _⟩ := hB (Bool.eq_false_iff.mpr hreq)
      obtain ⟨p, hp⟩ := orb_for_non_exact_some horb
      rw [hbl] at hp
      exact Option.noConfusion hp

/-- Witness for C7: the body-exclusion part applied at the concrete body
name Vesta and the unique hit of a concrete Sun-conjunct-natal-Sun query. -/
theorem C7_unknown_keys_silent_witness :
    TransitAspectHit.transit_body
        { transit_body := "Sun", natal_point := "Sun",
          aspect_name := "conjunction", aspect_angle := 0.0,
          error_deg := 0.0, applying := none, orb_used := some 1.0,
          minute_exact_required := false, minute_exact_passed := true,
          notes := "within orb", qualifies := true,
          within_orb := some true } ≠ "Vesta" :=
  C7_unknown_keys_silent.2.1 ⟨"diurnal", RULES.MINUTE_TOL_ARCMIN⟩
    [("Sun", ⟨0, none⟩)] [("Sun", ⟨0, none⟩)] true "Vesta"
    (by with_unfolding_all decide) (by with_unfolding_all rfl) _
    (by with_unfolding_all decide)

/-- C8: no hit (from the classifier or from either run mode) ever pairs a
natal point in the outer-natal set with a transiting body outside the
outer-natal whitelist; in particular a transiting-Saturn hit to natal
Saturn is never produced, and an exact Saturn-to-natal-Saturn conjunction
yields an empty result even in run_all. -/
theorem C8_outer_natal_gate :
    (∀ (e : DailyTransitRuleEngine) (tr na : List (String × BodyPosition))
        (q : Bool) (h : TransitAspectHit), h ∈ find_aspects e tr na q →
      h.natal_point ∈ RULES.OUTER_NATAL →
      h.transit_body ∈ RULES.OUTER_NATAL_ALLOWED_TRANSITS) ∧
    (∀ (e : DailyTransitRuleEngine) (tr na : List (String × BodyPosition))
        (h : TransitAspectHit),
      h ∈ run_qualifying e tr na ∨ h ∈ run_all e tr na →
      h.natal_point ∈ RULES.OUTER_NATAL →
      h.transit_body ∈ RULES.OUTER_NATAL_ALLOWED_TRANSITS) ∧
    (∀ (e : DailyTransitRuleEngine) (tr na : List (String × BodyPosition))
        (q : Bool) (h : TransitAspectHit), h ∈ find_aspects e tr na q →
      ¬(h.transit_body = "Saturn" ∧ h.natal_point = "Saturn")) ∧
    run_all ⟨"diurnal", RULES.MINUTE_TOL_ARCMIN⟩
      [("Saturn", ⟨0, none⟩)] [("Saturn", ⟨0, none⟩)] = [] := by
  have hgate : ∀ (e : DailyTransitRuleEngine)
      (tr na : List (String × BodyPosition)) (q : Bool)
      (h : TransitAspectHit), h ∈ find_aspects e tr na q →
      h.natal_point ∈ RULES.OUTER_NATAL →
      h.transit_body ∈ RULES.OUTER_NATAL_ALLOWED_TRANSITS := by
    intro e tr na q h hmem hout
    obtain ⟨t, ht, n, hn, asp, hasp, het, hen, ho, hh⟩ := mem_find_aspects hmem
    obtain ⟨htb, hnp, _⟩ := aspect_hits_spec hh
    rw [hnp] at hout
    rw [htb]
    unfold outer_natal_receiving_allowed at ho
    rw [if_pos (list_contains_iff.mpr hout)] at ho
    exact list_contains_iff.mp ho
  refine ⟨hgate, ?_, ?_, by with_unfolding_all rfl⟩
  · intro e tr na h hmem hout
    rcases hmem with hq | ha
    · exact hgate e tr na true h (mem_run_qualifying hq) hout
    · exact hgate e tr na false h (mem_run_all ha) hout
  · rintro e tr na q h hmem ⟨hsat, hnat⟩
    have := hgate e tr na q h hmem (by rw [hnat]; with_unfolding_all decide)
    rw [hsat] at this
    revert this
    with_unfolding_all decide

/-- Witness for C8: a qualifying transiting-Mars hit to natal Saturn shows
the gate satisfied by a whitelisted body. -/
theorem C8_outer_natal_gate_witness :
    TransitAspectHit.transit_body
        { transit_body := "Mars", natal_point := "Saturn",
          aspect_name := "conjunction", aspect_angle := 0.0,
          error_deg := 0.0, applying := some false, orb_used := some 1.0,
          minute_exact_required := false, minute_exact_passed := true,
          notes := "within orb", qualifies := true,
          within_orb := some true } ∈ RULES.OUTER_NATAL_ALLOWED_TRANSITS :=
  C8_outer_natal_gate.1 ⟨"diurnal", RULES.MINUTE_TOL_ARCMIN⟩
    [("Mars", ⟨0, some 1⟩)] [("Saturn", ⟨0, none⟩)] true _
    (by with_unfolding_all decide) (by with_unfolding_all decide)

/-- C1 counterexample: the aspect error is NOT always in the half-open
interval (-180, 180].  At transit longitude 0, natal longitude 0 and the
opposition angle 180 (a rule-table aspect), the error is exactly -180,
which is outside (-180, 180]; run_all on an exact Sun-conjunct-natal-Sun
chart actually emits a hit carrying error_deg = -180. -/
theorem C1_error_interval_counterexample :
    ("opposition", (180.0 : ℚ)) ∈ RULES.ASPECTS_DEG ∧
    aspect_error 0 0 180.0 = -180 ∧
    ¬(-180 < aspect_error 0 0 180.0) ∧
    ((run_all ⟨"diurnal", RULES.MINUTE_TOL_ARCMIN⟩
        [("Sun", ⟨0, none⟩)] [("Sun", ⟨0, none⟩)]).any
      (fun h => decide (h.error_deg = -180))) = true := by
  have he : aspect_error 0 0 180.0 = -180 := by with_unfolding_all rfl
  refine ⟨by with_unfolding_all decide, he, ?_, by with_unfolding_all rfl⟩
  rw [he]
  exact lt_irrefl _

/-- C1 (amended): for every pair of longitudes and every angle in the rule
table's aspect set, the signed error lies in the closed interval
[-180, 180], and so does the error of every hit produced by the classifier
in either run mode. -/
theorem C1_error_range :
    (∀ (t n : ℚ) (nm : String) (a : ℚ), (nm, a) ∈ RULES.ASPECTS_DEG →
      -180 ≤ aspect_error t n a ∧ aspect_error t n a ≤ 180) ∧
    (∀ (e : DailyTransitRuleEngine) (tr na : List (String × BodyPosition))
        (q : Bool) (h : TransitAspectHit), h ∈ find_aspects e tr na q →
      -180 ≤ h.error_deg ∧ h.error_deg ≤ 180) ∧
    (∀ (e : DailyTransitRuleEngine) (tr na : List (String × BodyPosition))
        (h : TransitAspectHit),
      h ∈ run_qualifying e tr na ∨ h ∈ run_all e tr na →
      -180 ≤ h.error_deg ∧ h.error_deg ≤ 180) := by
  have hangle : ∀ asp ∈ RULES.ASPECTS_DEG, 0 ≤ asp.2 ∧ asp.2 ≤ 180 := by
    with_unfolding_all decide
  have hfind : ∀ (e : DailyTransitRuleEngine)
      (tr na : List (String × BodyPosition)) (q : Bool)
      (h : TransitAspectHit), h ∈ find_aspects e tr na q →
      -180 ≤ h.error_deg ∧ h.error_deg ≤ 180 := by
    intro e tr na q h hmem
    obtain ⟨t, ht, n, hn, asp, hasp, het, hen, ho, hh⟩ := mem_find_aspects hmem
    obtain ⟨htb, hnp, han, hag, herr, _⟩ := aspect_hits_spec hh
    rw [herr]
    obtain ⟨h0, h180⟩ := hangle asp hasp
    exact aspect_error_bounds _ _ _ h0 h180
  refine ⟨fun t n nm a hmem => ?_, hfind, ?_⟩
  · obtain ⟨h0, h180⟩ := hangle (nm, a) hmem
    exact aspect_error_bounds t n a h0 h180
  · intro e tr na h hmem
    rcases hmem with hq | ha
    · exact hfind e tr na true h (mem_run_qualifying hq)
    · exact hfind e tr na false h (mem_run_all ha)

/-- Witness for C1 (amended): the concrete counterexample point of the
original claim satisfies the amended closed-interval bound. -/
theorem C1_error_range_witness :
    -180 ≤ aspect_error 0 0 180.0 ∧ aspect_error 0 0 180.0 ≤ 180 :=
  C1_error_range.1 0 0 "opposition" 180.0 (by with_unfolding_all decide)

/-- C2: with the dominance toggle set, in a diurnal engine a hit survives
apply_mars_dominance exactly when its transiting body is Mars or no Mars
hit in the list targets its natal point (so every Mars hit is preserved
and every non-Mars hit to a Mars-dominated point is removed); if Mars
produced no hits the list is returned unchanged; a nocturnal engine always
returns the list unchanged; and run_all is independent of the sect, i.e.
never applies the dominance filter. -/
theorem C2_mars_dominance :
    RULES.MARS_DOMINANCE_DIURNAL_ONLY = true ∧
    (∀ (e : DailyTransitRuleEngine), e.sect = "diurnal" →
      ∀ (hits : List TransitAspectHit) (h : TransitAspectHit),
        h ∈ apply_mars_dominance e hits ↔
          (h ∈ hits ∧ (h.transit_body = "Mars" ∨
            ∀ m ∈ hits, m.transit_body = "Mars" →
              m.natal_point ≠ h.natal_point))) ∧
    (∀ (e : DailyTransitRuleEngine) (hits : List TransitAspectHit),
      e.sect = "diurnal" → (∀ m ∈ hits, m.transit_body ≠ "Mars") →
      apply_mars_dominance e hits = hits) ∧
    (∀ (e : DailyTransitRuleEngine) (hits : List TransitAspectHit),
      e.sect = "nocturnal" → apply_mars_dominance e hits = hits) ∧
    (∀ (s s' : String) (tol : ℚ) (tr na : List (String × BodyPosition)),
      run_all ⟨s, tol⟩ tr na = run_all ⟨s', tol⟩ tr na) := by
  have hdiurnal : ∀ (e : DailyTransitRuleEngine), e.sect = "diurnal" →
      (!RULES.MARS_DOMINANCE_DIURNAL_ONLY || e.sect != "diurnal") = false := by
    intro e hsect
    rw [hsect]
    with_unfolding_all rfl
  refine ⟨rfl, ?_, ?_, ?_, fun s s' tol tr na => rfl⟩
  · intro e hsect hits h
    unfold apply_mars_dominance
    rw [hdiurnal e hsect, if_neg (by simp)]
    dsimp only
    have hdom : ∀ p : String,
        (((hits.filter (fun x => x.transit_body == "Mars")).map
          (fun x => x.natal_point)).contains p = true) ↔
        ∃ m ∈ hits, m.transit_body = "Mars" ∧ m.natal_point = p := by
      intro p
      rw [list_contains_iff]
      simp only [List.mem_map, List.mem_filter, beq_iff_eq]
      constructor
      · rintro ⟨m, ⟨hm, hmars⟩, hnat⟩
        exact ⟨m, hm, hmars, hnat⟩
      · rintro ⟨m, hm, hmars, hnat⟩
        exact ⟨m, ⟨hm, hmars⟩, hnat⟩
    split
    case isTrue hemp =>
      have hnomars : ∀ m ∈ hits, m.transit_body ≠ "Mars" := by
        intro m hm hmars
        rw [List.isEmpty_iff, List.map_eq_nil_iff, List.filter_eq_nil_iff]
          at hemp
        exact hemp m hm (by simp [hmars])
      constructor
      · intro hh
        exact ⟨hh, Or.inr (fun m hm hmars => absurd hmars (hnomars m hm))⟩
      · exact fun hh => hh.1
    case isFalse hemp =>
      rw [List.mem_filter]
      constructor
      · rintro ⟨hh, hcond⟩
        refine ⟨hh, ?_⟩
        rw [Bool.or_eq_true] at hcond
        rcases hcond with hm | hnc
        · exact Or.inl (by simpa using hm)
        · right
          intro m hm hmars heqnat
          rw [Bool.not_eq_eq_eq_not, Bool.not_true] at hnc
          rw [Bool.eq_false_iff] at hnc
          exact hnc ((hdom h.natal_point).mpr ⟨m, hm, hmars, heqnat⟩)
      · rintro ⟨hh, hor⟩
        refine ⟨hh, ?_⟩
        rw [Bool.or_eq_true]
        rcases hor with hm | hall
        · exact Or.inl (by simpa using hm)
        · right
          rw [Bool.not_eq_eq_eq_not, Bool.not_true, Bool.eq_false_iff]
          intro hc
          obtain ⟨m, hm, hmars, hnat⟩ := (hdom h.natal_point).mp hc
          exact hall m hm hmars hnat
  · intro e hits hsect hno
    unfold apply_mars_dominance
    rw [hdiurnal e hsect, if_neg (by simp)]
    dsimp only
    rw [if_pos]
    rw [List.isEmpty_iff, List.map_eq_nil_iff, List.filter_eq_nil_iff]
    intro m hm
    simp [hno m hm]
  · intro e hits hsect
    unfold apply_mars_dominance
    rw [hsect, if_pos]
    with_unfolding_all rfl

/-- Witness for C2: concrete instances — a nocturnal engine and a diurnal
engine with a Mars-free hit list both leave the list unchanged, and the
membership characterization instantiated at that list. -/
theorem C2_mars_dominance_witness :
    apply_mars_dominance ⟨"nocturnal", RULES.MINUTE_TOL_ARCMIN⟩
      [exampleSeparatingHit] = [exampleSeparatingHit] ∧
    apply_mars_dominance ⟨"diurnal", RULES.MINUTE_TOL_ARCMIN⟩
      [exampleSeparatingHit] = [exampleSeparatingHit] ∧
    (exampleSeparatingHit ∈ apply_mars_dominance
        ⟨"diurnal", RULES.MINUTE_TOL_ARCMIN⟩ [exampleSeparatingHit] ↔
      (exampleSeparatingHit ∈ [exampleSeparatingHit] ∧
        (exampleSeparatingHit.transit_body = "Mars" ∨
          ∀ m ∈ [exampleSeparatingHit], m.transit_body = "Mars" →
            m.natal_point ≠ exampleSeparatingHit.natal_point))) :=
  ⟨C2_mars_dominance.2.2.2.1 _ _ rfl,
   C2_mars_dominance.2.2.1 _ _ rfl (by with_unfolding_all decide),
   C2_mars_dominance.2.1 _ rfl _ _⟩

/-- C3: rank_hits returns a permutation of its input sorted by the
composite key order hit_le (orb-regime bucket before minute-exact; then
applying before unknown before separating; then ascending absolute error;
then body, natal point and angle), hit_le is total, and in the spec's
example the applying hit with error 0.3° ranks before the separating hit
with error 0.1°. -/
theorem C3_rank_hits_order :
    (∀ hits : List TransitAspectHit,
      (rank_hits hits).Perm hits ∧
      List.Pairwise (fun a b => hit_le a b = true) (rank_hits hits)) ∧
    (∀ a b : TransitAspectHit, hit_le a b = true ∨ hit_le b a = true) ∧
    rank_hits [exampleSeparatingHit, exampleApplyingHit] =
      [exampleApplyingHit, exampleSeparatingHit] := by
  refine ⟨fun hits => ⟨List.mergeSort_perm hits hit_le, ?_⟩, ?_, ?_⟩
  · exact List.sorted_mergeSort hit_le_trans hit_le_total hits
  · intro a b
    exact key_le_total _ _
  · with_unfolding_all rfl
